import Mathlib

/-!
Shallow embedding of the authentication and session-gating core of the
flaskr application (src/flaskr/auth.py) and the ownership check of the
blog module (src/flaskr/blog.py).

The storage collaborator (SQLite via get_db) is abstracted as a list of
rows: a SELECT ... WHERE ... fetchone becomes a List.find?, an INSERT
with the UNIQUE constraint on user.username becomes a guarded append.
The session-transport collaborator (flask.session) is an opaque
key-value bag, modelled as an association list.  Python-level control
flow of the embedded functions themselves is modelled faithfully,
including the unbound-name fault in the login view.
-/

namespace Flaskr

/-- A row of the user table: user(id PK, username UNIQUE NOT NULL, password TEXT NOT NULL).
The password column holds the hash produced by generate_password_hash, never the raw password. -/
structure User where
  id : Nat
  username : String
  password : String
deriving DecidableEq

/-- The credential store: the rows of the user table. -/
abbrev Store := List User

/-- The session: the opaque key-value bag provided by the session-transport
collaborator; the core only ever stores the numeric user_id in it. -/
abbrev Session := List (String × Nat)

/-- Embeds session.get(key): first binding for the key, or none. -/
def Session.get (sess : Session) (key : String) : Option Nat :=
  (sess.find? (fun kv => kv.1 = key)).map (fun kv => kv.2)

/-- Embeds the lookup SELECT * FROM user WHERE username = ? ... fetchone(). -/
def find_by_username (store : Store) (username : String) : Option User :=
  store.find? (fun u => u.username = username)

/-- Embeds the lookup SELECT * FROM user WHERE id = ? ... fetchone(). -/
def find_by_id (store : Store) (id : Nat) : Option User :=
  store.find? (fun u => u.id = id)

/-- Modelled from the spec: werkzeug.security.generate_password_hash is not part
of this repository.  The spec pins its contract: a one-way salted hash whose
output is never the raw password and which check_password_hash verifies.
Modelled as an injective tagged encoding. -/
def generate_password_hash (password : String) : String :=
  "scrypt$" ++ password

/-- Modelled from the spec: werkzeug.security.check_password_hash is not part of
this repository.  Verification succeeds exactly when the candidate password
hashes to the stored credential. -/
def check_password_hash (pwhash password : String) : Bool :=
  pwhash == generate_password_hash password

/-- Outcome of the register view (POST branch): either flash(error) and
re-render the form, or redirect(url_for("auth.login")). -/
inductive RegisterResult where
  | flashError (msg : String)
  | redirectLogin
deriving DecidableEq

/-- Embeds the POST branch of register (src/flaskr/auth.py lines 29-58):
validate that username and password are non-empty, then INSERT the username
with the hashed password; the UNIQUE constraint on user.username raises
IntegrityError on a duplicate, caught and turned into a flashed message.
Returns the outcome together with the store after the request. -/
def register (store : Store) (username password : String) : RegisterResult × Store :=
  if username = "" then
    (RegisterResult.flashError "Username is required.", store)
  else if password = "" then
    (RegisterResult.flashError "Password is required.", store)
  else if store.any (fun u => u.username = username) then
    (RegisterResult.flashError ("User " ++ username ++ " is already registered."), store)
  else
    (RegisterResult.redirectLogin,
      store ++ [⟨store.length + 1, username, generate_password_hash password⟩])

/-- Outcome of the login view (POST branch).  The success and flashError
outcomes are the ones the surrounding code is written for; nameErrorFault is
an unhandled Python NameError escaping the view. -/
inductive LoginResult where
  | success (sess : Session)
  | flashError (msg : String)
  | nameErrorFault
deriving DecidableEq

/-- Embeds the POST branch of login (src/flaskr/auth.py lines 60-86).  The
source assigns the fetched row to the local named error, and the next
statement reads the local named user, which is never assigned anywhere in the
function; in Python that read raises NameError unconditionally, so the view
faults on every POST before any credential check or session write. -/
def login (store : Store) (sess : Session) (username password : String) : LoginResult :=
  let error := find_by_username store username
  LoginResult.nameErrorFault

/-- Embeds load_logged_in_user (src/flaskr/auth.py lines 88-98): read user_id
from the session; absent means anonymous, otherwise g.user is the fetched row
for that id (none when the id no longer resolves). -/
def load_logged_in_user (store : Store) (sess : Session) : Option User :=
  match Session.get sess "user_id" with
  | none => none
  | some user_id => find_by_id store user_id

/-- Embeds logout (src/flaskr/auth.py lines 100-103): session.clear() then
redirect(url_for("index")); the String is the redirect target endpoint. -/
def logout (sess : Session) : Session × String :=
  ([], "index")

/-- Result of a guarded view call: either a redirect to an endpoint or the
wrapped view result. -/
inductive GuardResult (α : Type) where
  | redirect (endpoint : String)
  | result (a : α)
deriving DecidableEq

/-- Embeds login_required (src/flaskr/auth.py lines 106-114): the wrapped view
checks g.user at call time; anonymous callers are redirected to auth.login
without invoking the view, authenticated callers get the view result. -/
def login_required {κ α : Type} (g_user : Option User) (view : κ → α) (kwargs : κ) :
    GuardResult α :=
  match g_user with
  | none => GuardResult.redirect "auth.login"
  | some _ => GuardResult.result (view kwargs)

/-- A row of the joined post query: p.id, title, body, created, author_id,
username of the author. -/
structure Post where
  id : Nat
  title : String
  body : String
  created : Nat
  author_id : Nat
  username : String
deriving DecidableEq

/-- The query text get_post hands to execute (src/flaskr/blog.py lines 49-52):
in Python the three adjacent string literals concatenate with no separating
whitespace, so the text contains usernameFROM and u.idWHERE. -/
def get_post_query : String :=
  "SELECT p.id, title, body, created, author_id, username"
    ++ "FROM post p JOIN user u ON p.author_id = u.id"
    ++ "WHERE p.id = ?"

/-- Whether the character list pat occurs as a contiguous segment of the
second list. -/
def containsTok (pat : List Char) : List Char → Bool
  | [] => pat.isEmpty
  | c :: cs => pat.isPrefixOf (c :: cs) || containsTok pat cs

/-- Modelled from the spec: the storage collaborator execute(query, params)
parses the query text before running it and raises a syntax-error signal
(sqlite3.OperationalError) on text it cannot parse.  For the SELECT used by
get_post the parse requires the FROM and WHERE keywords to stand as words of
their own, that is, with whitespace on both sides. -/
def query_keywords_separated (q : String) : Bool :=
  containsTok " FROM ".data q.data && containsTok " WHERE ".data q.data

/-- The row lookup the collaborator would perform for WHERE p.id = ? followed
by fetchone(), once the query text parses. -/
def find_post (posts : List Post) (id : Nat) : Option Post :=
  posts.find? (fun p => p.id = id)

/-- Outcome of get_post: abort(404, msg), abort(403), an unhandled Python
TypeError from subscripting an absent identity, an unhandled OperationalError
from a query the collaborator cannot parse, or the post. -/
inductive GetPostResult where
  | notFound (status : Nat) (msg : String)
  | forbidden (status : Nat)
  | typeErrorFault
  | operationalErrorFault
  | ok (post : Post)
deriving DecidableEq

/-- Embeds get_post (src/flaskr/blog.py lines 48-62).  The source defaults
check_author to True; here it is an explicit argument.  The collaborator
first parses the query text; get_post_query lacks the whitespace before FROM
and WHERE, so on the code the parse fails and an OperationalError escapes
before any branch.  The branches the surrounding code is written for are kept
to embed lines 55-62: a missing post aborts with 404 and a message naming the
id, before the ownership comparison; when check_author is set the comparison
reads g.user with a subscript, and with an anonymous identity (g.user is
None) that subscript raises TypeError; a non-author aborts with 403. -/
def get_post (posts : List Post) (g_user : Option User) (id : Nat) (check_author : Bool) :
    GetPostResult :=
  if query_keywords_separated get_post_query then
    match find_post posts id with
    | none => GetPostResult.notFound 404 ("Post id " ++ toString id ++ " doesn't exist.")
    | some post =>
      if check_author then
        match g_user with
        | none => GetPostResult.typeErrorFault
        | some u =>
          if post.author_id ≠ u.id then GetPostResult.forbidden 403
          else GetPostResult.ok post
      else GetPostResult.ok post
  else GetPostResult.operationalErrorFault

/-! Theorems -/

/-- C1: the claim says login with an unknown username, or with a known username
and a wrong password, fails with InvalidCredentialsError and never establishes
a session.  On the code, every POST login faults with an unhandled NameError
before any credential check: the fetched row is assigned to the local error
and the unbound local user is read next.  This theorem evaluates the code on
both of the claim's paths — unknown username, and known username with wrong
password — and shows the fault, not an InvalidCredentialsError outcome. -/
theorem login_invalid_credential_paths_fault :
    login [⟨1, "alice", generate_password_hash "pw1"⟩] [] "ghost" "pw"
      = LoginResult.nameErrorFault ∧
    login [⟨1, "alice", generate_password_hash "pw1"⟩] [] "alice" "wrong"
      = LoginResult.nameErrorFault :=
  ⟨rfl, rfl⟩

/-- C4: the login-required guard redirects an anonymous identity to the login
entry point without invoking the wrapped view (the outcome is the same
whatever view is wrapped), and passes an authenticated identity through to
the view unchanged. -/
theorem login_required_spec :
    (∀ (κ α : Type) (view : κ → α) (kwargs : κ),
        login_required none view kwargs = GuardResult.redirect "auth.login") ∧
    (∀ (κ α : Type) (view view2 : κ → α) (kwargs : κ),
        login_required none view kwargs = login_required none view2 kwargs) ∧
    (∀ (κ α : Type) (u : User) (view : κ → α) (kwargs : κ),
        login_required (some u) view kwargs = GuardResult.result (view kwargs)) := by
  refine ⟨fun κ α view kwargs => rfl, fun κ α view view2 kwargs => rfl,
    fun κ α u view kwargs => rfl⟩

/-- C5: the claim says a login with valid credentials clears the prior session
and establishes a new one holding the new user id.  On the code, the success
path is unreachable: the view faults with an unhandled NameError before the
session is touched.  This theorem evaluates the code at a store containing
alice with the correct password, and a session already authenticated as
another user, and shows the fault. -/
theorem login_valid_credentials_fault :
    login [⟨1, "alice", generate_password_hash "pw1"⟩] [("user_id", 2)] "alice" "pw1"
      = LoginResult.nameErrorFault :=
  rfl

/-- C7: registering with an empty username, or with a nonempty username and an
empty password, flashes a message naming the required field and leaves the
credential store unchanged. -/
theorem register_empty_field_validation (store : Store) (username password : String) :
    (username = "" →
        register store username password
          = (RegisterResult.flashError "Username is required.", store)) ∧
    (username ≠ "" → password = "" →
        register store username password
          = (RegisterResult.flashError "Password is required.", store)) := by
  constructor
  · intro hu
    simp [register, hu]
  · intro hu hp
    simp [register, hu, hp]

/-- Witness for C7 at concrete inputs. -/
theorem register_empty_field_validation_witness :
    register [] "" "pw" = (RegisterResult.flashError "Username is required.", []) ∧
    register [] "alice" "" = (RegisterResult.flashError "Password is required.", []) :=
  ⟨(register_empty_field_validation [] "" "pw").1 rfl,
    (register_empty_field_validation [] "alice" "").2 (by decide) rfl⟩

/-- C8: logout clears the session unconditionally; the resolver then resolves
the identity to anonymous on the next request, and logout on an already empty
session has the very same outcome. -/
theorem logout_spec (store : Store) (sess : Session) :
    (logout sess).1 = ([] : Session) ∧
    load_logged_in_user store (logout sess).1 = none ∧
    logout sess = logout ([] : Session) := by
  refine ⟨rfl, ?_, rfl⟩
  simp [logout, load_logged_in_user, Session.get]

/-- C10 counterexample: with an existing post, check_author set and an
anonymous identity, get_post does not fault on subscripting the absent
identity: the collaborator rejects the malformed query first, so the fault is
an OperationalError, not the claimed TypeError. -/
theorem get_post_anonymous_counterexample :
    get_post [⟨5, "t", "b", 0, 2, "bob"⟩] none 5 true
        = GetPostResult.operationalErrorFault ∧
    get_post [⟨5, "t", "b", 0, 2, "bob"⟩] none 5 true
        ≠ GetPostResult.typeErrorFault := by
  decide

/-- C10 amended: get_post faults on every call, before the existence check,
the ownership comparison or any subscript of the identity: the query text is
unparseable and an OperationalError escapes.  An anonymous caller and any
authenticated caller get the identical outcome, so standing behind the
login-required guard does not make get_post safe: no call is. -/
theorem get_post_fault_identity_independent (posts : List Post) (id : Nat)
    (u : User) (check_author : Bool) :
    get_post posts none id check_author = GetPostResult.operationalErrorFault ∧
    get_post posts none id check_author = get_post posts (some u) id check_author := by
  have hq : query_keywords_separated get_post_query = false := by decide
  unfold get_post
  rw [hq]
  simp

/-- C2 counterexample: the claim quantifies over any two passwords, but with an
empty second password the second registration attempt fails with the
validation message, not with the duplicate-username message: register alice
with pw1, then register alice with the empty password. -/
theorem register_twice_empty_password_counterexample :
    (register (register [] "alice" "pw1").2 "alice" "").1
        = RegisterResult.flashError "Password is required." ∧
    (register (register [] "alice" "pw1").2 "alice" "").1
        ≠ RegisterResult.flashError "User alice is already registered." := by
  constructor
  · rfl
  · decide

/-- C2 amended: for every nonempty username u not yet in the store and any two
nonempty passwords, the first registration succeeds, exactly one stored record
has username u, and the second attempt fails with the duplicate message naming
u while leaving the store unchanged. -/
theorem register_twice_unique (store : Store) (u p1 p2 : String)
    (hu : u ≠ "") (hp1 : p1 ≠ "") (hp2 : p2 ≠ "")
    (hfresh : ∀ w ∈ store, w.username ≠ u) :
    (register store u p1).1 = RegisterResult.redirectLogin ∧
    ((register store u p1).2.filter (fun w => w.username = u)).length = 1 ∧
    (register (register store u p1).2 u p2).1
        = RegisterResult.flashError ("User " ++ u ++ " is already registered.") ∧
    (register (register store u p1).2 u p2).2 = (register store u p1).2 := by
  have hany : store.any (fun w => w.username = u) = false := by
    simp only [List.any_eq_false, decide_eq_true_eq]
    exact hfresh
  have h1 : register store u p1
      = (RegisterResult.redirectLogin,
          store ++ [⟨store.length + 1, u, generate_password_hash p1⟩]) := by
    simp [register, hu, hp1, hany]
  have hmem : (register store u p1).2.any (fun w => w.username = u) = true := by
    rw [h1]
    simp
  refine ⟨by rw [h1], ?_, ?_, ?_⟩
  · rw [h1]
    simp only [List.filter_append, List.length_append]
    have hnil : store.filter (fun w => decide (w.username = u)) = [] := by
      simp only [List.filter_eq_nil_iff, decide_eq_true_eq]
      exact hfresh
    simp [hnil]
  · rw [h1]
    simp [register, hu, hp2]
  · rw [h1]
    simp [register, hu, hp2]

/-- Witness for C2 amended at concrete inputs. -/
theorem register_twice_unique_witness :
    (register [] "alice" "pw1").1 = RegisterResult.redirectLogin ∧
    ((register [] "alice" "pw1").2.filter (fun w => w.username = "alice")).length = 1 ∧
    (register (register [] "alice" "pw1").2 "alice" "pw2").1
        = RegisterResult.flashError "User alice is already registered." ∧
    (register (register [] "alice" "pw1").2 "alice" "pw2").2
        = (register [] "alice" "pw1").2 :=
  register_twice_unique [] "alice" "pw1" "pw2" (by decide) (by decide) (by decide)
    (by intro w hw; cases hw)

/-- C3: the claim says get_post aborts with 404 and a message naming a
missing id before the ownership comparison, aborts with 403 for a non-author
when check_author is set, and returns the post to the author.  On the code
none of those branches is reachable: the query text is built from three
adjacent string literals concatenated without separating spaces
(usernameFROM..., u.idWHERE...), the storage collaborator cannot parse it,
and an unhandled OperationalError escapes on every call.  This theorem shows
the query text fails the keyword-separation parse and evaluates the code on
each of the claim's three branch inputs — missing id, non-author identity,
and the author itself: every one faults instead. -/
theorem get_post_query_operational_error :
    query_keywords_separated get_post_query = false ∧
    get_post [] (some ⟨1, "a", "h"⟩) 5 true = GetPostResult.operationalErrorFault ∧
    get_post [⟨5, "t", "b", 0, 2, "bob"⟩] (some ⟨1, "a", "h"⟩) 5 true
        = GetPostResult.operationalErrorFault ∧
    get_post [⟨5, "t", "b", 0, 1, "alice"⟩] (some ⟨1, "a", "h"⟩) 5 true
        = GetPostResult.operationalErrorFault := by
  decide

/-- C6: whenever the resolver exposes a non-anonymous identity, the session
holds a user_id and the exposed User record is the one whose id equals it; in
particular the resolver never exposes an identity whose id differs from the
session user_id.  When the session holds no user_id, or the held id resolves
to no stored User, the resolver exposes anonymous (none). -/
theorem load_logged_in_user_spec (store : Store) (sess : Session) (u : User)
    (h : load_logged_in_user store sess = some u) :
    Session.get sess "user_id" = some u.id := by
  unfold load_logged_in_user at h
  cases hg : Session.get sess "user_id" with
  | none => rw [hg] at h; exact absurd h (by simp)
  | some uid =>
    rw [hg] at h
    have hfind := List.find?_some h
    have : u.id = uid := by simpa using hfind
    rw [this]

/-- Witness for C6: a one-user store and a session pointing at that user. -/
theorem load_logged_in_user_spec_witness :
    Session.get [("user_id", 1)] "user_id" = some (User.mk 1 "alice" "h").id :=
  load_logged_in_user_spec [⟨1, "alice", "h"⟩] [("user_id", 1)] ⟨1, "alice", "h"⟩ rfl

/-- C9: the stored credential is never the raw password (the hash output
differs from its input), verifying a password against its own stored hash
succeeds, and verifying any other password against that hash fails. -/
theorem password_hash_spec (p q : String) :
    generate_password_hash p ≠ p ∧
    check_password_hash (generate_password_hash p) p = true ∧
    (q ≠ p → check_password_hash (generate_password_hash p) q = false) := by
  refine ⟨?_, ?_, ?_⟩
  · intro h
    have hlen := congrArg String.length h
    have h7 : ("scrypt$" : String).length = 7 := rfl
    rw [generate_password_hash, String.length_append, h7] at hlen
    omega
  · simp [check_password_hash]
  · intro hq
    simp only [check_password_hash, beq_eq_false_iff_ne, ne_eq]
    intro h
    exact hq (by
      have : ("scrypt$" ++ p).data = ("scrypt$" ++ q).data := congrArg String.data
        (by simpa [generate_password_hash] using h)
      simp only [String.data_append] at this
      exact (String.ext (List.append_cancel_left this)).symm)

/-- Witness for C9 at concrete passwords. -/
theorem password_hash_spec_witness :
    generate_password_hash "pw1" ≠ "pw1" ∧
    check_password_hash (generate_password_hash "pw1") "pw1" = true ∧
    check_password_hash (generate_password_hash "pw1") "pw2" = false :=
  ⟨(password_hash_spec "pw1" "pw2").1, (password_hash_spec "pw1" "pw2").2.1,
    (password_hash_spec "pw1" "pw2").2.2 (by decide)⟩

end Flaskr
